import Mathlib

/-!
Verification of the completions client (src/completions.go).

The Go code is shallowly embedded as follows.

* JSON documents are the inductive type `Json` (objects are association
  lists in document order; numbers are rationals, which represent the
  finite IEEE values that occur on the wire exactly; non-finite float
  values are outside the model).
* Go maps (`map of string to int`, `map of string to float32`) are
  represented by their canonical form: an association list strictly
  sorted by key, which is exactly the order in which `encoding/json`
  serializes a map.  `canonMap` sends an arbitrary association list to
  this canonical form with a later entry overwriting an earlier one,
  matching the last-wins behaviour of the decoder.
* Marshalling follows the struct tags of `CompletionRequest` in
  completions.go: every field except `model` carries `omitempty`, so a
  field at its zero value (empty string, numeric zero, false, empty
  slice or map, nil pointer) produces no key.  The pointer fields
  `Temperature`, `TopP` and `LogProbs` are embedded as `Option`, so an
  explicitly set zero is serialized.
* Unmarshalling looks every tagged key up in the document object and
  leaves the zero value when the key is absent or null, matching the
  decoder semantics of `encoding/json` for the shapes occurring here
  (objects produced by this client have no duplicate keys).
* The HTTP collaborator `Client.post` (defined elsewhere in the
  repository) is embedded as an abstract function from a route and a
  request document to either an error or a response body; a body is
  either well-formed JSON or malformed bytes.
-/

/-- A JSON value.  Objects keep their fields as an association list in
document order. -/
inductive Json where
  | null : Json
  | bool (b : Bool) : Json
  | num (q : Rat) : Json
  | str (s : String) : Json
  | arr (elems : List Json) : Json
  | obj (fields : List (String × Json)) : Json

/-- Errors returned by the embedded operations: either the collaborator
performing the POST failed (transport failure or non-success status), or
decoding the response body failed. -/
inductive Error where
  | transport (msg : String) : Error
  | decode (msg : String) : Error
deriving DecidableEq

/-- The byte slice returned by the POST collaborator, abstracted to
whether it parses as JSON: `bytesOf j` stands for bytes whose parse is
`j`, and `malformed s` for bytes that are not valid JSON. -/
inductive Body where
  | bytesOf (j : Json) : Body
  | malformed (raw : String) : Body

/-- Modelled from the spec: the models package (not under src/) defines a
stock completion model identifier as a string-typed value. -/
structure Completion where
  id : String
deriving DecidableEq

/-- Modelled from the spec: the models package (not under src/) defines a
fine-tuned model identifier as a string-typed value, the second of the
two closed variants of the model identifier concept. -/
structure FineTunedModel where
  id : String
deriving DecidableEq

namespace routes

/-- Modelled from the spec: the routes package (not under src/) names the
fixed completions resource that both entry points POST to. -/
def Completions : String := "completions"

end routes

/-- CompletionRequest contains all relevant fields for requests to the
completions endpoint (completions.go lines 13 to 94).  Pointer fields of
the Go struct are `Option`, slices are lists, and the logit bias map is
an association list in canonical (strictly sorted by key) order. -/
structure CompletionRequest (T : Type) where
  Model : T
  Prompt : String := ""
  Suffix : String := ""
  MaxTokens : Int := 0
  Temperature : Option Rat := none
  TopP : Option Rat := none
  N : Int := 0
  Stream : Bool := false
  LogProbs : Option Int := none
  Echo : Bool := false
  Stop : List String := []
  PresencePenalty : Rat := 0
  FrequencyPenalty : Rat := 0
  BestOf : Int := 0
  LogitBias : List (String × Int) := []
  User : String := ""
deriving DecidableEq

/-- Insert a key-value pair into an association list sorted by key,
replacing the value when the key is already present. -/
def insertSorted (k : String) (v : α) : List (String × α) → List (String × α)
  | [] => [(k, v)]
  | (k₁, v₁) :: rest =>
    if k = k₁ then (k, v) :: rest
    else if k < k₁ then (k, v) :: (k₁, v₁) :: rest
    else (k₁, v₁) :: insertSorted k v rest

/-- Canonical form of a Go map given as an association list: strictly
sorted by key, a later binding overwriting an earlier one. -/
def canonMap (l : List (String × α)) : List (String × α) :=
  l.foldl (fun acc p => insertSorted p.1 p.2 acc) []

/-- An association list is canonical when its keys are strictly
increasing; Go map values correspond exactly to canonical lists. -/
def IsCanon (l : List (String × α)) : Prop :=
  l.Pairwise (fun a b => a.1 < b.1)

instance (l : List (String × α)) : Decidable (IsCanon l) :=
  List.instDecidablePairwise l

/-- Serialization of an omitempty string field. -/
def strOmit (s : String) : Option Json :=
  if s = "" then none else some (Json.str s)

/-- Serialization of an omitempty int field. -/
def intOmit (n : Int) : Option Json :=
  if n = 0 then none else some (Json.num (n : Rat))

/-- Serialization of an omitempty bool field. -/
def boolOmit (b : Bool) : Option Json :=
  if b then some (Json.bool b) else none

/-- Serialization of an omitempty float field. -/
def ratOmit (q : Rat) : Option Json :=
  if q = 0 then none else some (Json.num q)

/-- Serialization of an omitempty string slice field. -/
def listStrOmit (l : List String) : Option Json :=
  if l = [] then none else some (Json.arr (l.map Json.str))

/-- Serialization of an omitempty map field from string keys to ints;
`encoding/json` writes map keys in sorted order. -/
def mapIntOmit (m : List (String × Int)) : Option Json :=
  if m = [] then none
  else some (Json.obj ((canonMap m).map (fun p => (p.1, Json.num (p.2 : Rat)))))

/-- The tagged fields of a `CompletionRequest` in struct declaration
order, each paired with `none` when omitempty suppresses it. -/
def requestFields (tStr : T → String) (cr : CompletionRequest T) :
    List (String × Option Json) :=
  [("model", some (Json.str (tStr cr.Model))),
   ("prompt", strOmit cr.Prompt),
   ("suffix", strOmit cr.Suffix),
   ("max_tokens", intOmit cr.MaxTokens),
   ("temperature", cr.Temperature.map Json.num),
   ("top_p", cr.TopP.map Json.num),
   ("n", intOmit cr.N),
   ("stream", boolOmit cr.Stream),
   ("logprobs", cr.LogProbs.map (fun (n : Int) => Json.num (n : Rat))),
   ("echo", boolOmit cr.Echo),
   ("stop", listStrOmit cr.Stop),
   ("presence_penalty", ratOmit cr.PresencePenalty),
   ("frequency_penalty", ratOmit cr.FrequencyPenalty),
   ("best_of", intOmit cr.BestOf),
   ("logit_bias", mapIntOmit cr.LogitBias),
   ("user", strOmit cr.User)]

/-- Keep the present fields of an optional field list. -/
def optFields : List (String × Option Json) → List (String × Json)
  | [] => []
  | (_, none) :: rest => optFields rest
  | (k, some v) :: rest => (k, v) :: optFields rest

/-- Marshalling of a `CompletionRequest` as performed by `json.Marshal`
inside the POST collaborator, following the struct tags. -/
def marshalCompletionRequest (tStr : T → String) (cr : CompletionRequest T) : Json :=
  Json.obj (optFields (requestFields tStr cr))

/-- First binding of a key in a JSON object field list (the objects this
development looks keys up in have no duplicate keys). -/
def lookupKey : List (String × Json) → String → Option Json
  | [], _ => none
  | (k, v) :: rest, key => if k = key then some v else lookupKey rest key

/-- Key set of a JSON object, in document order. -/
def objKeys : Json → List String
  | Json.obj fields => fields.map (fun p => p.1)
  | _ => []

/-- Decode a list element-wise, failing on the first element failure. -/
def exList (f : α → Except Error β) : List α → Except Error (List β)
  | [] => Except.ok []
  | a :: rest =>
    match f a with
    | Except.error e => Except.error e
    | Except.ok b =>
      match exList f rest with
      | Except.error e => Except.error e
      | Except.ok bs => Except.ok (b :: bs)

/-- Decode a JSON value sitting in a string position; null is a decoder
no-op and leaves the zero value. -/
def asJString : Json → Except Error String
  | Json.str s => Except.ok s
  | Json.null => Except.ok ""
  | _ => Except.error (Error.decode "cannot unmarshal value into string")

/-- Decode a JSON value sitting in a float position. -/
def asJRat : Json → Except Error Rat
  | Json.num q => Except.ok q
  | Json.null => Except.ok 0
  | _ => Except.error (Error.decode "cannot unmarshal value into float")

/-- Decode a JSON value sitting in an int position; a fractional number
is a type error for the decoder. -/
def asJInt : Json → Except Error Int
  | Json.num q => if q.den = 1 then Except.ok q.num
      else Except.error (Error.decode "cannot unmarshal fractional number into int")
  | Json.null => Except.ok 0
  | _ => Except.error (Error.decode "cannot unmarshal value into int")

/-- Decode an optional string field: an absent or null key leaves the
zero value of the Go string. -/
def exStringD : Option Json → Except Error String
  | none => Except.ok ""
  | some Json.null => Except.ok ""
  | some j => asJString j

/-- Decode an optional int field. -/
def exIntD : Option Json → Except Error Int
  | none => Except.ok 0
  | some Json.null => Except.ok 0
  | some j => asJInt j

/-- Decode an optional bool field. -/
def exBoolD : Option Json → Except Error Bool
  | none => Except.ok false
  | some Json.null => Except.ok false
  | some (Json.bool b) => Except.ok b
  | some _ => Except.error (Error.decode "cannot unmarshal value into bool")

/-- Decode an optional float field. -/
def exRatD : Option Json → Except Error Rat
  | none => Except.ok 0
  | some Json.null => Except.ok 0
  | some j => asJRat j

/-- Decode a float pointer field: absent or null leaves the nil
pointer, a number allocates a value. -/
def exOptRat : Option Json → Except Error (Option Rat)
  | none => Except.ok none
  | some Json.null => Except.ok none
  | some (Json.num q) => Except.ok (some q)
  | some _ => Except.error (Error.decode "cannot unmarshal value into float pointer")

/-- Decode an int pointer field. -/
def exOptInt : Option Json → Except Error (Option Int)
  | none => Except.ok none
  | some Json.null => Except.ok none
  | some (Json.num q) => if q.den = 1 then Except.ok (some q.num)
      else Except.error (Error.decode "cannot unmarshal fractional number into int pointer")
  | some _ => Except.error (Error.decode "cannot unmarshal value into int pointer")

/-- Decode a string slice field: absent or null leaves the nil slice. -/
def exStrList : Option Json → Except Error (List String)
  | none => Except.ok []
  | some Json.null => Except.ok []
  | some (Json.arr elems) => exList asJString elems
  | some _ => Except.error (Error.decode "cannot unmarshal value into string slice")

/-- Decode a map field from string keys to ints; the decoded entries are
brought to the canonical (Go map) form with a later duplicate key
overwriting an earlier one. -/
def exIntMap : Option Json → Except Error (List (String × Int))
  | none => Except.ok []
  | some Json.null => Except.ok []
  | some (Json.obj fields) =>
    match exList (fun p => (asJInt p.2).map (fun v => (p.1, v))) fields with
    | Except.error e => Except.error e
    | Except.ok entries => Except.ok (canonMap entries)
  | some _ => Except.error (Error.decode "cannot unmarshal value into int map")

/-- The zero value of a `CompletionRequest`, the state of the struct
before the decoder stores any field. -/
def zeroRequest (tOf : String → T) : CompletionRequest T :=
  { Model := tOf "" }

/-- Unmarshalling of a `CompletionRequest` by `json.Unmarshal`: every
tagged key is looked up in the document object, and an absent or null
key leaves the zero value of its field. -/
def unmarshalCompletionRequest (tOf : String → T) : Json → Except Error (CompletionRequest T)
  | Json.null => Except.ok (zeroRequest tOf)
  | Json.obj fields =>
    match exStringD (lookupKey fields "model") with
    | Except.error e => Except.error e
    | Except.ok model =>
    match exStringD (lookupKey fields "prompt") with
    | Except.error e => Except.error e
    | Except.ok prompt =>
    match exStringD (lookupKey fields "suffix") with
    | Except.error e => Except.error e
    | Except.ok suffix₁ =>
    match exIntD (lookupKey fields "max_tokens") with
    | Except.error e => Except.error e
    | Except.ok maxTokens =>
    match exOptRat (lookupKey fields "temperature") with
    | Except.error e => Except.error e
    | Except.ok temperature =>
    match exOptRat (lookupKey fields "top_p") with
    | Except.error e => Except.error e
    | Except.ok topP =>
    match exIntD (lookupKey fields "n") with
    | Except.error e => Except.error e
    | Except.ok n =>
    match exBoolD (lookupKey fields "stream") with
    | Except.error e => Except.error e
    | Except.ok stream =>
    match exOptInt (lookupKey fields "logprobs") with
    | Except.error e => Except.error e
    | Except.ok logProbs =>
    match exBoolD (lookupKey fields "echo") with
    | Except.error e => Except.error e
    | Except.ok echo =>
    match exStrList (lookupKey fields "stop") with
    | Except.error e => Except.error e
    | Except.ok stop =>
    match exRatD (lookupKey fields "presence_penalty") with
    | Except.error e => Except.error e
    | Except.ok presencePenalty =>
    match exRatD (lookupKey fields "frequency_penalty") with
    | Except.error e => Except.error e
    | Except.ok frequencyPenalty =>
    match exIntD (lookupKey fields "best_of") with
    | Except.error e => Except.error e
    | Except.ok bestOf =>
    match exIntMap (lookupKey fields "logit_bias") with
    | Except.error e => Except.error e
    | Except.ok logitBias =>
    match exStringD (lookupKey fields "user") with
    | Except.error e => Except.error e
    | Except.ok user =>
      Except.ok
        { Model := tOf model, Prompt := prompt, Suffix := suffix₁,
          MaxTokens := maxTokens, Temperature := temperature, TopP := topP,
          N := n, Stream := stream, LogProbs := logProbs, Echo := echo,
          Stop := stop, PresencePenalty := presencePenalty,
          FrequencyPenalty := frequencyPenalty, BestOf := bestOf,
          LogitBias := logitBias, User := user }
  | _ => Except.error (Error.decode "cannot unmarshal value into CompletionRequest")

/-- LogprobResult represents the logprob result of a Choice
(completions.go lines 105 to 110): four parallel slices, with the maps
from alternative token to log-probability in canonical order. -/
structure LogprobResult where
  Tokens : List String := []
  TokenLogprobs : List Rat := []
  TopLogprobs : List (List (String × Rat)) := []
  TextOffset : List Int := []
deriving DecidableEq

/-- CompletionChoice represents one of possible completions
(completions.go lines 97 to 102); the logprobs pointer is an Option. -/
structure CompletionChoice where
  Text : String := ""
  Index : Int := 0
  FinishReason : String := ""
  LogProbs : Option LogprobResult := none
deriving DecidableEq

/-- CompletionResponse is the response from the completions endpoint
(completions.go lines 113 to 120).  The object tag is a string (the
objects package is external to src/), the usage structure is external to
this core and kept as the raw JSON object it was parsed from, and the
choices slice of pointers is a list of Options. -/
structure CompletionResponse (T : Type) where
  ID : String
  Object : String
  Created : Nat
  Model : T
  Choices : List (Option CompletionChoice)
  Usage : Option Json

/-- Decode a float list field. -/
def exRatList : Option Json → Except Error (List Rat)
  | none => Except.ok []
  | some Json.null => Except.ok []
  | some (Json.arr elems) => exList asJRat elems
  | some _ => Except.error (Error.decode "cannot unmarshal value into float slice")

/-- Decode an int list field. -/
def exIntList : Option Json → Except Error (List Int)
  | none => Except.ok []
  | some Json.null => Except.ok []
  | some (Json.arr elems) => exList asJInt elems
  | some _ => Except.error (Error.decode "cannot unmarshal value into int slice")

/-- Decode one element of the top logprobs slice: a map from string to
float, nil when the element is null. -/
def asJRatMap : Json → Except Error (List (String × Rat))
  | Json.null => Except.ok []
  | Json.obj fields =>
    match exList (fun p => (asJRat p.2).map (fun v => (p.1, v))) fields with
    | Except.error e => Except.error e
    | Except.ok entries => Except.ok (canonMap entries)
  | _ => Except.error (Error.decode "cannot unmarshal value into float map")

/-- Decode the top logprobs field, a slice of maps. -/
def exRatMapList : Option Json → Except Error (List (List (String × Rat)))
  | none => Except.ok []
  | some Json.null => Except.ok []
  | some (Json.arr elems) => exList asJRatMap elems
  | some _ => Except.error (Error.decode "cannot unmarshal value into map slice")

/-- Unmarshalling of a `LogprobResult` from the fields of its document
object: the four slices are decoded independently, with no relation
between their lengths imposed. -/
def unmarshalLogprobFields (fields : List (String × Json)) : Except Error LogprobResult :=
  match exStrList (lookupKey fields "tokens") with
  | Except.error e => Except.error e
  | Except.ok tokens =>
  match exRatList (lookupKey fields "token_logprobs") with
  | Except.error e => Except.error e
  | Except.ok tokenLogprobs =>
  match exRatMapList (lookupKey fields "top_logprobs") with
  | Except.error e => Except.error e
  | Except.ok topLogprobs =>
  match exIntList (lookupKey fields "text_offset") with
  | Except.error e => Except.error e
  | Except.ok textOffset =>
    Except.ok
      { Tokens := tokens, TokenLogprobs := tokenLogprobs,
        TopLogprobs := topLogprobs, TextOffset := textOffset }

/-- Decode the logprobs pointer field of a choice. -/
def exOptLogprob : Option Json → Except Error (Option LogprobResult)
  | none => Except.ok none
  | some Json.null => Except.ok none
  | some (Json.obj fields) => (unmarshalLogprobFields fields).map some
  | some _ => Except.error (Error.decode "cannot unmarshal value into LogprobResult")

/-- Unmarshalling of a `CompletionChoice` from the fields of its
document object. -/
def unmarshalChoiceFields (fields : List (String × Json)) : Except Error CompletionChoice :=
  match exStringD (lookupKey fields "text") with
  | Except.error e => Except.error e
  | Except.ok text =>
  match exIntD (lookupKey fields "index") with
  | Except.error e => Except.error e
  | Except.ok index =>
  match exStringD (lookupKey fields "finish_reason") with
  | Except.error e => Except.error e
  | Except.ok finishReason =>
  match exOptLogprob (lookupKey fields "logprobs") with
  | Except.error e => Except.error e
  | Except.ok logProbs =>
    Except.ok
      { Text := text, Index := index, FinishReason := finishReason,
        LogProbs := logProbs }

/-- Decode one element of the choices slice of pointers: null gives a
nil pointer. -/
def asJChoicePtr : Json → Except Error (Option CompletionChoice)
  | Json.null => Except.ok none
  | Json.obj fields => (unmarshalChoiceFields fields).map some
  | _ => Except.error (Error.decode "cannot unmarshal value into CompletionChoice")

/-- Decode the choices field of a response. -/
def exChoiceList : Option Json → Except Error (List (Option CompletionChoice))
  | none => Except.ok []
  | some Json.null => Except.ok []
  | some (Json.arr elems) => exList asJChoicePtr elems
  | some _ => Except.error (Error.decode "cannot unmarshal value into choices slice")

/-- Decode the created field, an unsigned 64-bit integer. -/
def exUInt64 : Option Json → Except Error Nat
  | none => Except.ok 0
  | some Json.null => Except.ok 0
  | some (Json.num q) =>
    if q.den = 1 ∧ 0 ≤ q.num ∧ q.num < 2 ^ 64 then Except.ok q.num.toNat
    else Except.error (Error.decode "cannot unmarshal number into uint64")
  | some _ => Except.error (Error.decode "cannot unmarshal value into uint64")

/-- Decode the usage pointer field; the structure of Usage is external
to this core, so the parsed object is kept as is. -/
def exUsage : Option Json → Except Error (Option Json)
  | none => Except.ok none
  | some Json.null => Except.ok none
  | some (Json.obj fields) => Except.ok (some (Json.obj fields))
  | some _ => Except.error (Error.decode "cannot unmarshal value into Usage")

/-- The zero value of a `CompletionResponse`. -/
def zeroResponse (tOf : String → T) : CompletionResponse T :=
  { ID := "", Object := "", Created := 0, Model := tOf "", Choices := [],
    Usage := none }

/-- Unmarshalling of a `CompletionResponse` by `json.Unmarshal`
(completions.go lines 130 and 145): every tagged key is looked up in the
document object and an absent or null key leaves the zero value. -/
def unmarshalCompletionResponse (tOf : String → T) :
    Json → Except Error (CompletionResponse T)
  | Json.null => Except.ok (zeroResponse tOf)
  | Json.obj fields =>
    match exStringD (lookupKey fields "id") with
    | Except.error e => Except.error e
    | Except.ok id =>
    match exStringD (lookupKey fields "object") with
    | Except.error e => Except.error e
    | Except.ok object =>
    match exUInt64 (lookupKey fields "created") with
    | Except.error e => Except.error e
    | Except.ok created =>
    match exStringD (lookupKey fields "model") with
    | Except.error e => Except.error e
    | Except.ok model =>
    match exChoiceList (lookupKey fields "choices") with
    | Except.error e => Except.error e
    | Except.ok choices =>
    match exUsage (lookupKey fields "usage") with
    | Except.error e => Except.error e
    | Except.ok usage =>
      Except.ok
        { ID := id, Object := object, Created := created, Model := tOf model,
          Choices := choices, Usage := usage }
  | _ => Except.error (Error.decode "cannot unmarshal value into CompletionResponse")

/-- Parsing the raw response bytes: malformed bytes are a syntax error
of the decoder. -/
def parseBody : Body → Except Error Json
  | Body.bytesOf j => Except.ok j
  | Body.malformed _ => Except.error (Error.decode "invalid character in response body")

/-- The single `json.Unmarshal` call on the bytes returned by the POST:
parse the bytes, then decode the document into the response struct. -/
def jsonUnmarshalResponse (tOf : String → T) (b : Body) :
    Except Error (CompletionResponse T) :=
  match parseBody b with
  | Except.error e => Except.error e
  | Except.ok j => unmarshalCompletionResponse tOf j

/-- The owning client, reduced to the one collaborator capability this
core consumes: an HTTP POST of a serialized request document to a route,
returning raw bytes or an error (transport failure, non-success status,
or cancellation).  The cancellation context is absorbed into the
behaviour of this function. -/
structure Client where
  post : String → Json → Except Error Body

/-- CreateCompletion creates a completion for the provided prompt and
parameters (completions.go lines 123 to 135): POST the request to the
completions route, propagate a post error unchanged, then unmarshal the
returned bytes, propagating an unmarshalling error unchanged. -/
def Client.CreateCompletion (c : Client) (cr : CompletionRequest Completion) :
    Except Error (CompletionResponse Completion) :=
  match c.post routes.Completions (marshalCompletionRequest Completion.id cr) with
  | Except.error e => Except.error e
  | Except.ok b => jsonUnmarshalResponse Completion.mk b

/-- CreateFineTunedCompletion creates a completion using a fine-tuned
model (completions.go lines 138 to 150); same steps as CreateCompletion
at the fine-tuned model identifier type. -/
def Client.CreateFineTunedCompletion (c : Client)
    (cr : CompletionRequest FineTunedModel) :
    Except Error (CompletionResponse FineTunedModel) :=
  match c.post routes.Completions (marshalCompletionRequest FineTunedModel.id cr) with
  | Except.error e => Except.error e
  | Except.ok b => jsonUnmarshalResponse FineTunedModel.mk b

/-- Field lookup on a JSON document (none on a non-object). -/
def objLookup : Json → String → Option Json
  | Json.obj fields, k => lookupKey fields k
  | _, _ => none

/-- Relabelling of a response from the stock to the fine-tuned model
identifier variant, the identity on every other field. -/
def CompletionResponse.toFineTuned (r : CompletionResponse Completion) :
    CompletionResponse FineTunedModel :=
  { ID := r.ID, Object := r.Object, Created := r.Created,
    Model := FineTunedModel.mk r.Model.id, Choices := r.Choices,
    Usage := r.Usage }

/-- Relabelling of a request from the stock to the fine-tuned model
identifier variant, the identity on every other field. -/
def CompletionRequest.toFineTuned (cr : CompletionRequest Completion) :
    CompletionRequest FineTunedModel :=
  { Model := FineTunedModel.mk cr.Model.id, Prompt := cr.Prompt,
    Suffix := cr.Suffix, MaxTokens := cr.MaxTokens,
    Temperature := cr.Temperature, TopP := cr.TopP, N := cr.N,
    Stream := cr.Stream, LogProbs := cr.LogProbs, Echo := cr.Echo,
    Stop := cr.Stop, PresencePenalty := cr.PresencePenalty,
    FrequencyPenalty := cr.FrequencyPenalty, BestOf := cr.BestOf,
    LogitBias := cr.LogitBias, User := cr.User }

/-- Index-ascending comparison on entries of the choices slice; trivial
when either side is a nil pointer. -/
def IdxLe : Option CompletionChoice → Option CompletionChoice → Prop
  | some ca, some cb => ca.Index ≤ cb.Index
  | none, _ => True
  | some _, none => True

instance (a b : Option CompletionChoice) : Decidable (IdxLe a b) :=
  match a, b with
  | some ca, some cb => inferInstanceAs (Decidable (ca.Index ≤ cb.Index))
  | none, _ => inferInstanceAs (Decidable True)
  | some _, none => inferInstanceAs (Decidable True)

/-- Witness for C3: a client whose POST fails with a connection refused
transport error makes CreateCompletion return that same error. -/
def failingClient : Client :=
  Client.mk (fun _ _ => Except.error (Error.transport "connection refused"))

/-- Witness for C4: a client answering bytes that are not JSON makes
CreateCompletion return a decode error. -/
def malformedClient : Client :=
  Client.mk (fun _ _ => Except.ok (Body.malformed "it is not json"))

/-- Witness input for C5: a response document with two choice entries of
ascending indices. -/
def fieldsC5 : List (String × Json) :=
  [("id", Json.str "cmpl-1"),
   ("choices", Json.arr
      [Json.obj [("text", Json.str "Hi"), ("index", Json.num 0),
                 ("finish_reason", Json.str "stop"), ("logprobs", Json.null)],
       Json.obj [("text", Json.str "Yo"), ("index", Json.num 1),
                 ("finish_reason", Json.str "length")]])]

/-- Witness source array for C5: the two choice entries of fieldsC5. -/
def xsC5 : List Json :=
  [Json.obj [("text", Json.str "Hi"), ("index", Json.num 0),
             ("finish_reason", Json.str "stop"), ("logprobs", Json.null)],
   Json.obj [("text", Json.str "Yo"), ("index", Json.num 1),
             ("finish_reason", Json.str "length")]]

/-- Witness response for C5: the decode of fieldsC5. -/
def respC5 : CompletionResponse Completion :=
  { ID := "cmpl-1", Object := "", Created := 0, Model := Completion.mk "",
    Choices :=
      [some { Text := "Hi", Index := 0, FinishReason := "stop", LogProbs := none },
       some { Text := "Yo", Index := 1, FinishReason := "length", LogProbs := none }],
    Usage := none }

/-- Witness response document for C6. -/
def fieldsC6 : List (String × Json) :=
  [("id", Json.str "cmpl-1"),
   ("object", Json.str "text_completion"),
   ("created", Json.num 1600000000),
   ("model", Json.str "text-davinci-003"),
   ("choices", Json.arr
      [Json.obj [("text", Json.str "Hi!"), ("index", Json.num 0),
                 ("finish_reason", Json.str "stop"), ("logprobs", Json.null)]]),
   ("usage", Json.obj [("total_tokens", Json.num 7)])]

/-- Witness decoded response for C6. -/
def respC6 : CompletionResponse Completion :=
  { ID := "cmpl-1", Object := "text_completion", Created := 1600000000,
    Model := Completion.mk "text-davinci-003",
    Choices :=
      [some { Text := "Hi!", Index := 0, FinishReason := "stop", LogProbs := none }],
    Usage := some (Json.obj [("total_tokens", Json.num 7)]) }

/-- Witness client for C6, answering the fieldsC6 document. -/
def clientC6 : Client :=
  Client.mk (fun _ _ => Except.ok (Body.bytesOf (Json.obj fieldsC6)))

/-- Witness request for C1: every field explicitly set, with explicit
zeros in the three nullable numeric fields. -/
def crC1 : CompletionRequest Completion :=
  { Model := Completion.mk "text-davinci-003", Prompt := "Say hi",
    Suffix := "tail", MaxTokens := 5, Temperature := some 0, TopP := some 0,
    N := 2, Stream := true, LogProbs := some 0, Echo := true,
    Stop := ["a", "bb"], PresencePenalty := -2, FrequencyPenalty := 2,
    BestOf := 3, LogitBias := [("1", -100), ("50256", 100)], User := "u1" }

/-- Witness request for C10, violating every documented range: logprobs
17, penalties 5 and minus 7, five stop sequences, a logit bias of 999,
and best_of not exceeding n. -/
def crC10 : CompletionRequest Completion :=
  { Model := Completion.mk "text-davinci-003", LogProbs := some 17,
    PresencePenalty := 5, FrequencyPenalty := -7,
    Stop := ["a", "b", "c", "d", "e"], LogitBias := [("50256", 999)],
    BestOf := 1, N := 2 }

/-- Witness client for C10, answering a null body to every request. -/
def nullClient : Client :=
  Client.mk (fun _ _ => Except.ok (Body.bytesOf Json.null))

theorem lookupKey_optFields_skip {k key : String} (v : Option Json)
    (rest : List (String × Option Json)) (h : ¬ k = key) :
    lookupKey (optFields ((k, v) :: rest)) key = lookupKey (optFields rest) key := by
  cases v with
  | none => rfl
  | some v => simp [optFields, lookupKey, h]

theorem lookupKey_optFields_self {k : String} (v : Option Json)
    (rest : List (String × Option Json))
    (h : lookupKey (optFields rest) k = none) :
    lookupKey (optFields ((k, v) :: rest)) k = v := by
  cases v with
  | none => exact h
  | some v => simp [optFields, lookupKey]

theorem insertSorted_of_forall_lt {k : String} {v : α} :
    ∀ {l : List (String × α)}, (∀ p ∈ l, p.1 < k) →
      insertSorted k v l = l ++ [(k, v)] := by
  intro l
  induction l with
  | nil => intro _; rfl
  | cons hd tl ih =>
    intro h
    have hlt : hd.1 < k := h hd (List.mem_cons_self hd tl)
    have hne : ¬ k = hd.1 := (ne_of_gt hlt)
    have hnlt : ¬ k < hd.1 := lt_asymm hlt
    simp only [insertSorted, if_neg hne, if_neg hnlt, List.cons_append]
    rw [ih (fun p hp => h p (List.mem_cons_of_mem hd hp))]

theorem foldl_insertSorted_of_canon :
    ∀ (l acc : List (String × α)), IsCanon (acc ++ l) →
      l.foldl (fun acc p => insertSorted p.1 p.2 acc) acc = acc ++ l := by
  intro l
  induction l with
  | nil => intro acc _; simp
  | cons hd tl ih =>
    intro acc h
    have hacc : ∀ p ∈ acc, p.1 < hd.1 := by
      have h₁ := (List.pairwise_append.mp h).2.2
      intro p hp
      exact h₁ p hp hd (List.mem_cons_self hd tl)
    have hstep : insertSorted hd.1 hd.2 acc = acc ++ [hd] := by
      rw [insertSorted_of_forall_lt hacc]
    have hre : (acc ++ [hd]) ++ tl = acc ++ hd :: tl := by
      rw [List.append_assoc, List.singleton_append]
    simp only [List.foldl_cons, hstep]
    rw [ih (acc ++ [hd]) (by rw [hre]; exact h), hre]

theorem canonMap_eq_self {l : List (String × α)} (h : IsCanon l) :
    canonMap l = l := by
  have h₀ : IsCanon (([] : List (String × α)) ++ l) := by simpa using h
  simpa using foldl_insertSorted_of_canon l [] h₀

theorem lookup_req_model (tStr : T → String) (cr : CompletionRequest T) :
    lookupKey (optFields (requestFields tStr cr)) "model" =
      some (Json.str (tStr cr.Model)) := by
  simp [requestFields, lookupKey_optFields_skip, lookupKey_optFields_self, optFields, lookupKey]

theorem lookup_req_prompt (tStr : T → String) (cr : CompletionRequest T) :
    lookupKey (optFields (requestFields tStr cr)) "prompt" = strOmit cr.Prompt := by
  simp [requestFields, lookupKey_optFields_skip, lookupKey_optFields_self, optFields, lookupKey]

theorem lookup_req_suffix (tStr : T → String) (cr : CompletionRequest T) :
    lookupKey (optFields (requestFields tStr cr)) "suffix" = strOmit cr.Suffix := by
  simp [requestFields, lookupKey_optFields_skip, lookupKey_optFields_self, optFields, lookupKey]

theorem lookup_req_max_tokens (tStr : T → String) (cr : CompletionRequest T) :
    lookupKey (optFields (requestFields tStr cr)) "max_tokens" = intOmit cr.MaxTokens := by
  simp [requestFields, lookupKey_optFields_skip, lookupKey_optFields_self, optFields, lookupKey]

theorem lookup_req_temperature (tStr : T → String) (cr : CompletionRequest T) :
    lookupKey (optFields (requestFields tStr cr)) "temperature" =
      cr.Temperature.map Json.num := by
  simp [requestFields, lookupKey_optFields_skip, lookupKey_optFields_self, optFields, lookupKey]

theorem lookup_req_top_p (tStr : T → String) (cr : CompletionRequest T) :
    lookupKey (optFields (requestFields tStr cr)) "top_p" = cr.TopP.map Json.num := by
  simp [requestFields, lookupKey_optFields_skip, lookupKey_optFields_self, optFields, lookupKey]

theorem lookup_req_n (tStr : T → String) (cr : CompletionRequest T) :
    lookupKey (optFields (requestFields tStr cr)) "n" = intOmit cr.N := by
  simp [requestFields, lookupKey_optFields_skip, lookupKey_optFields_self, optFields, lookupKey]

theorem lookup_req_stream (tStr : T → String) (cr : CompletionRequest T) :
    lookupKey (optFields (requestFields tStr cr)) "stream" = boolOmit cr.Stream := by
  simp [requestFields, lookupKey_optFields_skip, lookupKey_optFields_self, optFields, lookupKey]

theorem lookup_req_logprobs (tStr : T → String) (cr : CompletionRequest T) :
    lookupKey (optFields (requestFields tStr cr)) "logprobs" =
      cr.LogProbs.map (fun (n : Int) => Json.num (n : Rat)) := by
  simp [requestFields, lookupKey_optFields_skip, lookupKey_optFields_self, optFields, lookupKey]

theorem lookup_req_echo (tStr : T → String) (cr : CompletionRequest T) :
    lookupKey (optFields (requestFields tStr cr)) "echo" = boolOmit cr.Echo := by
  simp [requestFields, lookupKey_optFields_skip, lookupKey_optFields_self, optFields, lookupKey]

theorem lookup_req_stop (tStr : T → String) (cr : CompletionRequest T) :
    lookupKey (optFields (requestFields tStr cr)) "stop" = listStrOmit cr.Stop := by
  simp [requestFields, lookupKey_optFields_skip, lookupKey_optFields_self, optFields, lookupKey]

theorem lookup_req_presence_penalty (tStr : T → String) (cr : CompletionRequest T) :
    lookupKey (optFields (requestFields tStr cr)) "presence_penalty" =
      ratOmit cr.PresencePenalty := by
  simp [requestFields, lookupKey_optFields_skip, lookupKey_optFields_self, optFields, lookupKey]

theorem lookup_req_frequency_penalty (tStr : T → String) (cr : CompletionRequest T) :
    lookupKey (optFields (requestFields tStr cr)) "frequency_penalty" =
      ratOmit cr.FrequencyPenalty := by
  simp [requestFields, lookupKey_optFields_skip, lookupKey_optFields_self, optFields, lookupKey]

theorem lookup_req_best_of (tStr : T → String) (cr : CompletionRequest T) :
    lookupKey (optFields (requestFields tStr cr)) "best_of" = intOmit cr.BestOf := by
  simp [requestFields, lookupKey_optFields_skip, lookupKey_optFields_self, optFields, lookupKey]

theorem lookup_req_logit_bias (tStr : T → String) (cr : CompletionRequest T) :
    lookupKey (optFields (requestFields tStr cr)) "logit_bias" =
      mapIntOmit cr.LogitBias := by
  simp [requestFields, lookupKey_optFields_skip, lookupKey_optFields_self, optFields, lookupKey]

theorem lookup_req_user (tStr : T → String) (cr : CompletionRequest T) :
    lookupKey (optFields (requestFields tStr cr)) "user" = strOmit cr.User := by
  simp [requestFields, lookupKey_optFields_skip, lookupKey_optFields_self, optFields, lookupKey]

theorem exStringD_strOmit (s : String) : exStringD (strOmit s) = Except.ok s := by
  unfold strOmit
  split
  · rename_i h; rw [h]; rfl
  · rfl

theorem exIntD_intOmit (n : Int) : exIntD (intOmit n) = Except.ok n := by
  unfold intOmit
  split
  · rename_i h; rw [h]; rfl
  · show asJInt (Json.num (n : Rat)) = Except.ok n
    simp [asJInt, Rat.den_intCast, Rat.num_intCast]

theorem exBoolD_boolOmit (b : Bool) : exBoolD (boolOmit b) = Except.ok b := by
  cases b <;> rfl

theorem exRatD_ratOmit (q : Rat) : exRatD (ratOmit q) = Except.ok q := by
  unfold ratOmit
  split
  · rename_i h; rw [h]; rfl
  · rfl

theorem exOptRat_map (o : Option Rat) : exOptRat (o.map Json.num) = Except.ok o := by
  cases o <;> rfl

theorem exOptInt_map (o : Option Int) :
    exOptInt (o.map (fun (n : Int) => Json.num (n : Rat))) = Except.ok o := by
  cases o with
  | none => rfl
  | some n => simp [exOptInt, Rat.den_intCast, Rat.num_intCast]

theorem exList_asJString_map (l : List String) :
    exList asJString (l.map Json.str) = Except.ok l := by
  induction l with
  | nil => rfl
  | cons a t ih => simp [exList, asJString, ih]

theorem exStrList_listStrOmit (l : List String) :
    exStrList (listStrOmit l) = Except.ok l := by
  unfold listStrOmit
  split
  · rename_i h; rw [h]; rfl
  · show exList asJString (l.map Json.str) = Except.ok l
    exact exList_asJString_map l

theorem exList_intEntry_map (l : List (String × Int)) :
    exList (fun p => (asJInt p.2).map (fun v => (p.1, v)))
      (l.map (fun p => (p.1, Json.num (p.2 : Rat)))) = Except.ok l := by
  induction l with
  | nil => rfl
  | cons a t ih =>
    have ha : asJInt (Json.num ((a.2 : Int) : Rat)) = Except.ok a.2 := by
      simp [asJInt, Rat.den_intCast, Rat.num_intCast]
    simp only [Except.map] at ih
    simp only [List.map_cons, exList, ha, Except.map, ih]

theorem exIntMap_mapIntOmit {m : List (String × Int)} (hc : IsCanon m) :
    exIntMap (mapIntOmit m) = Except.ok m := by
  unfold mapIntOmit
  split
  · rename_i h; rw [h]; rfl
  · show exIntMap (some (Json.obj ((canonMap m).map
        (fun p => (p.1, Json.num (p.2 : Rat)))))) = Except.ok m
    rw [canonMap_eq_self hc]
    simp [exIntMap, exList_intEntry_map, canonMap_eq_self hc]

theorem exStringD_str (s : String) : exStringD (some (Json.str s)) = Except.ok s := rfl

/-- C1: serializing a CompletionRequest with the documented field
mapping and deserializing the result yields the original request back;
in particular the round trip is the identity on every explicitly set
field.  The hypothesis on the model identifier codec says the identifier
is string-typed, and the hypothesis on the logit bias list says it is
the canonical representation of a Go map, which every Go map value
has. -/
theorem claim_C1_request_roundtrip {T : Type} (tStr : T → String) (tOf : String → T)
    (hT : ∀ x, tOf (tStr x) = x) (cr : CompletionRequest T)
    (hB : IsCanon cr.LogitBias) :
    unmarshalCompletionRequest tOf (marshalCompletionRequest tStr cr) =
      Except.ok cr := by
  show unmarshalCompletionRequest tOf (Json.obj (optFields (requestFields tStr cr))) =
    Except.ok cr
  simp only [unmarshalCompletionRequest, lookup_req_model, lookup_req_prompt,
    lookup_req_suffix, lookup_req_max_tokens, lookup_req_temperature,
    lookup_req_top_p, lookup_req_n, lookup_req_stream, lookup_req_logprobs,
    lookup_req_echo, lookup_req_stop, lookup_req_presence_penalty,
    lookup_req_frequency_penalty, lookup_req_best_of, lookup_req_logit_bias,
    lookup_req_user, exStringD_str, exStringD_strOmit, exIntD_intOmit,
    exBoolD_boolOmit, exRatD_ratOmit, exOptRat_map, exOptInt_map,
    exStrList_listStrOmit, exIntMap_mapIntOmit hB, hT]

theorem exList_ok_length {f : α → Except Error β} :
    ∀ {l : List α} {ys : List β}, exList f l = Except.ok ys → ys.length = l.length := by
  intro l
  induction l with
  | nil => intro ys h; simp only [exList] at h; cases h; rfl
  | cons a t ih =>
    intro ys h
    simp only [exList] at h
    cases hfa : f a with
    | error e => rw [hfa] at h; cases h
    | ok b =>
      rw [hfa] at h
      cases hrest : exList f t with
      | error e => rw [hrest] at h; cases h
      | ok bs =>
        rw [hrest] at h
        cases h
        simp [ih hrest]

theorem lookupKey_isSome_iff_mem :
    ∀ (fields : List (String × Json)) (k : String),
      (lookupKey fields k).isSome = true ↔ k ∈ fields.map (fun p => p.1) := by
  intro fields k
  induction fields with
  | nil => simp [lookupKey]
  | cons hd tl ih =>
    by_cases h : hd.1 = k
    · simp [lookupKey, h]
    · have h₂ : ¬ k = hd.1 := fun hk => h hk.symm
      simp [lookupKey, h, ih, h₂]

theorem unmarshalResponse_obj_ok {T : Type} {tOf : String → T}
    {fields : List (String × Json)} {r : CompletionResponse T}
    (h : unmarshalCompletionResponse tOf (Json.obj fields) = Except.ok r) :
    exStringD (lookupKey fields "id") = Except.ok r.ID ∧
    exStringD (lookupKey fields "object") = Except.ok r.Object ∧
    exUInt64 (lookupKey fields "created") = Except.ok r.Created ∧
    (exStringD (lookupKey fields "model")).map tOf = Except.ok r.Model ∧
    exChoiceList (lookupKey fields "choices") = Except.ok r.Choices ∧
    exUsage (lookupKey fields "usage") = Except.ok r.Usage := by
  simp only [unmarshalCompletionResponse] at h
  cases h1 : exStringD (lookupKey fields "id") <;> rw [h1] at h <;> simp at h
  cases h2 : exStringD (lookupKey fields "object") <;> rw [h2] at h <;> simp at h
  cases h3 : exUInt64 (lookupKey fields "created") <;> rw [h3] at h <;> simp at h
  cases h4 : exStringD (lookupKey fields "model") <;> rw [h4] at h <;> simp at h
  cases h5 : exChoiceList (lookupKey fields "choices") <;> rw [h5] at h <;> simp at h
  cases h6 : exUsage (lookupKey fields "usage") <;> rw [h6] at h <;> simp at h
  subst h
  simp [Except.map]

theorem marshal_toFineTuned (cr : CompletionRequest Completion) :
    marshalCompletionRequest FineTunedModel.id cr.toFineTuned =
      marshalCompletionRequest Completion.id cr := rfl

theorem unmarshalResponse_toFineTuned (j : Json) :
    unmarshalCompletionResponse FineTunedModel.mk j =
      Except.map CompletionResponse.toFineTuned
        (unmarshalCompletionResponse Completion.mk j) := by
  cases j with
  | obj fields =>
    simp only [unmarshalCompletionResponse]
    cases exStringD (lookupKey fields "id") with
    | error e => rfl
    | ok id =>
    cases exStringD (lookupKey fields "object") with
    | error e => rfl
    | ok object =>
    cases exUInt64 (lookupKey fields "created") with
    | error e => rfl
    | ok created =>
    cases exStringD (lookupKey fields "model") with
    | error e => rfl
    | ok model =>
    cases exChoiceList (lookupKey fields "choices") with
    | error e => rfl
    | ok choices =>
    cases exUsage (lookupKey fields "usage") with
    | error e => rfl
    | ok usage => rfl
  | null => rfl
  | bool b => rfl
  | num q => rfl
  | str s => rfl
  | arr elems => rfl

theorem exList_asJRat_map (l : List Rat) :
    exList asJRat (l.map Json.num) = Except.ok l := by
  induction l with
  | nil => rfl
  | cons a t ih => simp [exList, asJRat, ih]

theorem exList_asJInt_map (l : List Int) :
    exList asJInt (l.map (fun (n : Int) => Json.num (n : Rat))) = Except.ok l := by
  induction l with
  | nil => rfl
  | cons a t ih =>
    have ha : asJInt (Json.num ((a : Int) : Rat)) = Except.ok a := by
      simp [asJInt, Rat.den_intCast, Rat.num_intCast]
    simp only [List.map_cons, exList, ha, ih]

theorem exList_ratEntry_map (l : List (String × Rat)) :
    exList (fun p => (asJRat p.2).map (fun v => (p.1, v)))
      (l.map (fun p => (p.1, Json.num p.2))) = Except.ok l := by
  induction l with
  | nil => rfl
  | cons a t ih =>
    simp only [Except.map] at ih
    have ha : asJRat (Json.num a.2) = Except.ok a.2 := rfl
    simp only [List.map_cons, exList, ha, Except.map, ih]

theorem asJRatMap_render {m : List (String × Rat)} (hm : IsCanon m) :
    asJRatMap (Json.obj (m.map (fun p => (p.1, Json.num p.2)))) = Except.ok m := by
  simp [asJRatMap, exList_ratEntry_map, canonMap_eq_self hm]

theorem exList_asJRatMap_map :
    ∀ (tops : List (List (String × Rat))), (∀ m ∈ tops, IsCanon m) →
      exList asJRatMap
        (tops.map (fun m => Json.obj (m.map (fun p => (p.1, Json.num p.2))))) =
        Except.ok tops := by
  intro tops
  induction tops with
  | nil => intro _; rfl
  | cons a t ih =>
    intro hc
    have ha : IsCanon a := hc a (List.mem_cons_self a t)
    have ht : ∀ m ∈ t, IsCanon m := fun m hm => hc m (List.mem_cons_of_mem a hm)
    simp [exList, asJRatMap_render ha, ih ht]

/-- C3: if the POST step fails, CreateCompletion and
CreateFineTunedCompletion return the underlying error unchanged and no
response value. -/
theorem claim_C3_post_error_propagated :
    (∀ (c : Client) (cr : CompletionRequest Completion) (e : Error),
      c.post routes.Completions (marshalCompletionRequest Completion.id cr) =
        Except.error e →
      c.CreateCompletion cr = Except.error e) ∧
    (∀ (c : Client) (cr : CompletionRequest FineTunedModel) (e : Error),
      c.post routes.Completions (marshalCompletionRequest FineTunedModel.id cr) =
        Except.error e →
      c.CreateFineTunedCompletion cr = Except.error e) := by
  constructor <;> intro c cr e h <;>
    simp [Client.CreateCompletion, Client.CreateFineTunedCompletion, h]

theorem claim_C3_witness :
    failingClient.CreateCompletion { Model := Completion.mk "text-davinci-003" } =
      Except.error (Error.transport "connection refused") :=
  claim_C3_post_error_propagated.1 failingClient
    { Model := Completion.mk "text-davinci-003" }
    (Error.transport "connection refused") rfl

/-- C4: if the response body is malformed JSON, the operation returns a
deserialization error and no response value. -/
theorem claim_C4_malformed_body :
    (∀ (c : Client) (cr : CompletionRequest Completion) (s : String),
      c.post routes.Completions (marshalCompletionRequest Completion.id cr) =
        Except.ok (Body.malformed s) →
      c.CreateCompletion cr =
        Except.error (Error.decode "invalid character in response body")) ∧
    (∀ (c : Client) (cr : CompletionRequest FineTunedModel) (s : String),
      c.post routes.Completions (marshalCompletionRequest FineTunedModel.id cr) =
        Except.ok (Body.malformed s) →
      c.CreateFineTunedCompletion cr =
        Except.error (Error.decode "invalid character in response body")) := by
  constructor <;> intro c cr s h <;>
    simp [Client.CreateCompletion, Client.CreateFineTunedCompletion, h,
      jsonUnmarshalResponse, parseBody]

theorem claim_C4_witness :
    malformedClient.CreateCompletion { Model := Completion.mk "text-davinci-003" } =
      Except.error (Error.decode "invalid character in response body") :=
  claim_C4_malformed_body.1 malformedClient
    { Model := Completion.mk "text-davinci-003" } "it is not json" rfl

/-- C9: CreateCompletion and CreateFineTunedCompletion are the same
logical operation at the two model identifier variants: relabelling a
request to the fine-tuned variant and running CreateFineTunedCompletion
gives exactly the relabelled result of CreateCompletion, for every
client behaviour. -/
theorem claim_C9_same_operation (c : Client) (cr : CompletionRequest Completion) :
    c.CreateFineTunedCompletion cr.toFineTuned =
      Except.map CompletionResponse.toFineTuned (c.CreateCompletion cr) := by
  unfold Client.CreateCompletion Client.CreateFineTunedCompletion
  rw [marshal_toFineTuned]
  cases c.post routes.Completions (marshalCompletionRequest Completion.id cr) with
  | error e => rfl
  | ok b =>
    cases b with
    | malformed s => rfl
    | bytesOf j =>
      simp [jsonUnmarshalResponse, parseBody, unmarshalResponse_toFineTuned]

/-- C8: the request with model text-davinci-003, prompt Say hi and five
max tokens, everything else unset, serializes to a body whose key set is
exactly model, prompt, max_tokens. -/
theorem claim_C8_scenario_keys :
    objKeys (marshalCompletionRequest Completion.id
      { Model := Completion.mk "text-davinci-003", Prompt := "Say hi",
        MaxTokens := 5 }) = ["model", "prompt", "max_tokens"] := by
  decide

/-- C7: a LogprobResult decoded from a document whose four parallel
arrays have any lengths whatsoever is preserved exactly as provided: the
decoder applies no rejection, truncation or padding. -/
theorem claim_C7_logprob_faithful (tokens : List String) (lps : List Rat)
    (tops : List (List (String × Rat))) (offs : List Int)
    (hc : ∀ m ∈ tops, IsCanon m) :
    unmarshalLogprobFields
      [("tokens", Json.arr (tokens.map Json.str)),
       ("token_logprobs", Json.arr (lps.map Json.num)),
       ("top_logprobs", Json.arr (tops.map
          (fun m => Json.obj (m.map (fun p => (p.1, Json.num p.2)))))),
       ("text_offset", Json.arr (offs.map (fun (n : Int) => Json.num (n : Rat))))] =
      Except.ok
        { Tokens := tokens, TokenLogprobs := lps, TopLogprobs := tops,
          TextOffset := offs } := by
  simp [unmarshalLogprobFields, lookupKey, exStrList, exRatList, exRatMapList,
    exIntList, exList_asJString_map, exList_asJRat_map,
    exList_asJRatMap_map tops hc, exList_asJInt_map]

/-- Witness for C7: mismatched lengths two, zero, one and three are
accepted and preserved verbatim. -/
theorem claim_C7_witness :
    unmarshalLogprobFields
      [("tokens", Json.arr [Json.str "a", Json.str "b"]),
       ("token_logprobs", Json.arr []),
       ("top_logprobs", Json.arr [Json.obj [("x", Json.num 1)]]),
       ("text_offset", Json.arr [Json.num ((0 : Int) : Rat),
          Json.num ((2 : Int) : Rat), Json.num ((5 : Int) : Rat)])] =
      Except.ok
        { Tokens := ["a", "b"], TokenLogprobs := [],
          TopLogprobs := [[("x", 1)]], TextOffset := [0, 2, 5] } :=
  claim_C7_logprob_faithful ["a", "b"] [] [[("x", 1)]] [0, 2, 5] (by decide)

/-- C5: deserializing a response whose choices key holds an array of k
entries yields a choices sequence of exactly those k entries decoded in
source order; in particular, when the source entries are in ascending
index order, so is the resulting choices sequence. -/
theorem claim_C5_choices_preserved {T : Type} (tOf : String → T)
    (fields : List (String × Json)) (xs : List Json) (r : CompletionResponse T)
    (hch : lookupKey fields "choices" = some (Json.arr xs))
    (hok : unmarshalCompletionResponse tOf (Json.obj fields) = Except.ok r) :
    exList asJChoicePtr xs = Except.ok r.Choices ∧
    r.Choices.length = xs.length ∧
    (∀ ys, exList asJChoicePtr xs = Except.ok ys → ys.Pairwise IdxLe →
      r.Choices.Pairwise IdxLe) := by
  have h := (unmarshalResponse_obj_ok hok).2.2.2.2.1
  rw [hch] at h
  simp only [exChoiceList] at h
  refine ⟨h, exList_ok_length h, ?_⟩
  intro ys hys hasc
  rw [h] at hys
  cases hys
  exact hasc

theorem claim_C5_witness :
    exList asJChoicePtr xsC5 = Except.ok respC5.Choices ∧
    respC5.Choices.length = xsC5.length ∧
    respC5.Choices.Pairwise IdxLe := by
  have h := claim_C5_choices_preserved Completion.mk fieldsC5 xsC5 respC5 rfl rfl
  exact ⟨h.1, h.2.1, h.2.2 respC5.Choices h.1 (by decide)⟩

/-- C6: on a successful POST whose bytes parse and decode, the operation
returns the decoded response, typed at the same model identifier variant
as the request, and every field of that response is the decode of its
key in the parsed document. -/
theorem claim_C6_success :
    (∀ (c : Client) (cr : CompletionRequest Completion) (j : Json)
        (r : CompletionResponse Completion),
      c.post routes.Completions (marshalCompletionRequest Completion.id cr) =
        Except.ok (Body.bytesOf j) →
      unmarshalCompletionResponse Completion.mk j = Except.ok r →
      c.CreateCompletion cr = Except.ok r ∧
      ∀ fields, j = Json.obj fields →
        exStringD (lookupKey fields "id") = Except.ok r.ID ∧
        exStringD (lookupKey fields "object") = Except.ok r.Object ∧
        exUInt64 (lookupKey fields "created") = Except.ok r.Created ∧
        exStringD (lookupKey fields "model") = Except.ok r.Model.id ∧
        exChoiceList (lookupKey fields "choices") = Except.ok r.Choices ∧
        exUsage (lookupKey fields "usage") = Except.ok r.Usage) ∧
    (∀ (c : Client) (cr : CompletionRequest FineTunedModel) (j : Json)
        (r : CompletionResponse FineTunedModel),
      c.post routes.Completions (marshalCompletionRequest FineTunedModel.id cr) =
        Except.ok (Body.bytesOf j) →
      unmarshalCompletionResponse FineTunedModel.mk j = Except.ok r →
      c.CreateFineTunedCompletion cr = Except.ok r ∧
      ∀ fields, j = Json.obj fields →
        exStringD (lookupKey fields "id") = Except.ok r.ID ∧
        exStringD (lookupKey fields "object") = Except.ok r.Object ∧
        exUInt64 (lookupKey fields "created") = Except.ok r.Created ∧
        exStringD (lookupKey fields "model") = Except.ok r.Model.id ∧
        exChoiceList (lookupKey fields "choices") = Except.ok r.Choices ∧
        exUsage (lookupKey fields "usage") = Except.ok r.Usage) := by
  constructor <;>
  · intro c cr j r hpost hun
    constructor
    · simp [Client.CreateCompletion, Client.CreateFineTunedCompletion, hpost,
        jsonUnmarshalResponse, parseBody, hun]
    · intro fields hj
      subst hj
      have h6 := unmarshalResponse_obj_ok hun
      refine ⟨h6.1, h6.2.1, h6.2.2.1, ?_, h6.2.2.2.2.1, h6.2.2.2.2.2⟩
      have hm := h6.2.2.2.1
      cases hx : exStringD (lookupKey fields "model") with
      | error e => rw [hx] at hm; simp [Except.map] at hm
      | ok m =>
        rw [hx] at hm
        simp only [Except.map, Except.ok.injEq] at hm
        rw [← hm]

theorem claim_C6_witness :
    clientC6.CreateCompletion
      { Model := Completion.mk "text-davinci-003", Prompt := "Say hi",
        MaxTokens := 5 } = Except.ok respC6 ∧
    exStringD (lookupKey fieldsC6 "id") = Except.ok respC6.ID := by
  have h := claim_C6_success.1 clientC6
    { Model := Completion.mk "text-davinci-003", Prompt := "Say hi",
      MaxTokens := 5 } (Json.obj fieldsC6) respC6 rfl rfl
  exact ⟨h.1, (h.2 fieldsC6 rfl).1⟩

theorem claim_C1_witness :
    unmarshalCompletionRequest Completion.mk
      (marshalCompletionRequest Completion.id crC1) = Except.ok crC1 :=
  claim_C1_request_roundtrip Completion.id Completion.mk (fun _ => rfl) crC1
    (by
      show IsCanon [("1", (-100 : Int)), ("50256", 100)]
      exact List.Pairwise.cons
        (fun b hb => by
          rw [List.mem_singleton.mp hb]
          exact String.lt_iff_toList_lt.mpr (by decide))
        (List.Pairwise.cons (fun b hb => absurd hb (List.not_mem_nil b))
          List.Pairwise.nil))

/-- C2: an optional field left at its zero value produces no key in the
serialized body, a set field always produces its key, and the three
nullable numeric fields temperature, top_p and logprobs serialize an
explicitly set zero, distinct from unset.  Stated as one equation per
tagged key of the serialized document, plus the key-presence laws of the
three nullable fields. -/
theorem claim_C2_omitempty {T : Type} (tStr : T → String) (cr : CompletionRequest T) :
    objLookup (marshalCompletionRequest tStr cr) "model" =
      some (Json.str (tStr cr.Model)) ∧
    objLookup (marshalCompletionRequest tStr cr) "prompt" =
      (if cr.Prompt = "" then none else some (Json.str cr.Prompt)) ∧
    objLookup (marshalCompletionRequest tStr cr) "suffix" =
      (if cr.Suffix = "" then none else some (Json.str cr.Suffix)) ∧
    objLookup (marshalCompletionRequest tStr cr) "max_tokens" =
      (if cr.MaxTokens = 0 then none else some (Json.num (cr.MaxTokens : Rat))) ∧
    objLookup (marshalCompletionRequest tStr cr) "temperature" =
      cr.Temperature.map Json.num ∧
    objLookup (marshalCompletionRequest tStr cr) "top_p" =
      cr.TopP.map Json.num ∧
    objLookup (marshalCompletionRequest tStr cr) "n" =
      (if cr.N = 0 then none else some (Json.num (cr.N : Rat))) ∧
    objLookup (marshalCompletionRequest tStr cr) "stream" =
      (if cr.Stream then some (Json.bool cr.Stream) else none) ∧
    objLookup (marshalCompletionRequest tStr cr) "logprobs" =
      cr.LogProbs.map (fun (n : Int) => Json.num (n : Rat)) ∧
    objLookup (marshalCompletionRequest tStr cr) "echo" =
      (if cr.Echo then some (Json.bool cr.Echo) else none) ∧
    objLookup (marshalCompletionRequest tStr cr) "stop" =
      (if cr.Stop = [] then none else some (Json.arr (cr.Stop.map Json.str))) ∧
    objLookup (marshalCompletionRequest tStr cr) "presence_penalty" =
      (if cr.PresencePenalty = 0 then none
       else some (Json.num cr.PresencePenalty)) ∧
    objLookup (marshalCompletionRequest tStr cr) "frequency_penalty" =
      (if cr.FrequencyPenalty = 0 then none
       else some (Json.num cr.FrequencyPenalty)) ∧
    objLookup (marshalCompletionRequest tStr cr) "best_of" =
      (if cr.BestOf = 0 then none else some (Json.num (cr.BestOf : Rat))) ∧
    objLookup (marshalCompletionRequest tStr cr) "logit_bias" =
      (if cr.LogitBias = [] then none
       else some (Json.obj ((canonMap cr.LogitBias).map
         (fun p => (p.1, Json.num (p.2 : Rat)))))) ∧
    objLookup (marshalCompletionRequest tStr cr) "user" =
      (if cr.User = "" then none else some (Json.str cr.User)) ∧
    (("temperature" ∈ objKeys (marshalCompletionRequest tStr cr)) ↔
      cr.Temperature.isSome = true) ∧
    (("top_p" ∈ objKeys (marshalCompletionRequest tStr cr)) ↔
      cr.TopP.isSome = true) ∧
    (("logprobs" ∈ objKeys (marshalCompletionRequest tStr cr)) ↔
      cr.LogProbs.isSome = true) := by
  refine ⟨?_, ?_, ?_, ?_, ?_, ?_, ?_, ?_, ?_, ?_, ?_, ?_, ?_, ?_, ?_, ?_,
    ?_, ?_, ?_⟩
  · exact lookup_req_model tStr cr
  · exact lookup_req_prompt tStr cr
  · exact lookup_req_suffix tStr cr
  · exact lookup_req_max_tokens tStr cr
  · exact lookup_req_temperature tStr cr
  · exact lookup_req_top_p tStr cr
  · exact lookup_req_n tStr cr
  · exact lookup_req_stream tStr cr
  · exact lookup_req_logprobs tStr cr
  · exact lookup_req_echo tStr cr
  · exact lookup_req_stop tStr cr
  · exact lookup_req_presence_penalty tStr cr
  · exact lookup_req_frequency_penalty tStr cr
  · exact lookup_req_best_of tStr cr
  · exact lookup_req_logit_bias tStr cr
  · exact lookup_req_user tStr cr
  · show "temperature" ∈ objKeys (Json.obj (optFields (requestFields tStr cr))) ↔ _
    simp only [objKeys]
    rw [← lookupKey_isSome_iff_mem, lookup_req_temperature]
    cases cr.Temperature <;> simp
  · show "top_p" ∈ objKeys (Json.obj (optFields (requestFields tStr cr))) ↔ _
    simp only [objKeys]
    rw [← lookupKey_isSome_iff_mem, lookup_req_top_p]
    cases cr.TopP <;> simp
  · show "logprobs" ∈ objKeys (Json.obj (optFields (requestFields tStr cr))) ↔ _
    simp only [objKeys]
    rw [← lookupKey_isSome_iff_mem, lookup_req_logprobs]
    cases cr.LogProbs <;> simp

/-- C10: the client validates no documented field range or constraint:
for every request value, including log-probability counts outside zero
to five, penalties outside minus two to two, more than four stop
sequences, logit bias values outside minus 100 to 100, or a best_of not
exceeding n, serialization succeeds and the values are sent as given;
and the transport result depends on the request only through the
serialized body handed to the POST, so no error originating from field
values is ever produced. -/
theorem claim_C10_no_validation :
    (∀ (T : Type) (tStr : T → String) (cr : CompletionRequest T),
      (∃ fs, marshalCompletionRequest tStr cr = Json.obj fs) ∧
      objLookup (marshalCompletionRequest tStr cr) "logprobs" =
        cr.LogProbs.map (fun (n : Int) => Json.num (n : Rat)) ∧
      objLookup (marshalCompletionRequest tStr cr) "presence_penalty" =
        (if cr.PresencePenalty = 0 then none
         else some (Json.num cr.PresencePenalty)) ∧
      objLookup (marshalCompletionRequest tStr cr) "frequency_penalty" =
        (if cr.FrequencyPenalty = 0 then none
         else some (Json.num cr.FrequencyPenalty)) ∧
      objLookup (marshalCompletionRequest tStr cr) "stop" =
        (if cr.Stop = [] then none
         else some (Json.arr (cr.Stop.map Json.str))) ∧
      objLookup (marshalCompletionRequest tStr cr) "logit_bias" =
        (if cr.LogitBias = [] then none
         else some (Json.obj ((canonMap cr.LogitBias).map
           (fun p => (p.1, Json.num (p.2 : Rat)))))) ∧
      objLookup (marshalCompletionRequest tStr cr) "best_of" =
        (if cr.BestOf = 0 then none else some (Json.num (cr.BestOf : Rat))) ∧
      objLookup (marshalCompletionRequest tStr cr) "n" =
        (if cr.N = 0 then none else some (Json.num (cr.N : Rat)))) ∧
    (∀ (c c₁ : Client) (cr cr₁ : CompletionRequest Completion),
      c.post routes.Completions (marshalCompletionRequest Completion.id cr) =
        c₁.post routes.Completions (marshalCompletionRequest Completion.id cr₁) →
      c.CreateCompletion cr = c₁.CreateCompletion cr₁) := by
  constructor
  · intro T tStr cr
    exact ⟨⟨optFields (requestFields tStr cr), rfl⟩,
      lookup_req_logprobs tStr cr, lookup_req_presence_penalty tStr cr,
      lookup_req_frequency_penalty tStr cr, lookup_req_stop tStr cr,
      lookup_req_logit_bias tStr cr, lookup_req_best_of tStr cr,
      lookup_req_n tStr cr⟩
  · intro c c₁ cr cr₁ h
    unfold Client.CreateCompletion
    rw [h]

theorem claim_C10_witness :
    objLookup (marshalCompletionRequest Completion.id crC10) "logprobs" =
      some (Json.num ((17 : Int) : Rat)) ∧
    nullClient.CreateCompletion crC10 =
      nullClient.CreateCompletion { Model := Completion.mk "other" } :=
  ⟨((claim_C10_no_validation.1 Completion Completion.id crC10).2.1).trans rfl,
    claim_C10_no_validation.2 nullClient nullClient crC10
      { Model := Completion.mk "other" } rfl⟩
